import Mathlib

/-!
Shallow embedding of the lead distribution / pull / transfer engine of the
SaumataLMSBackend repository (src/apps/leads/services.py, src/apps/leads/models.py,
src/utils/constants.py).

Stateful Django ORM code is modelled by explicit state passing over a `DB` record
holding the active `Lead` table, the `PulledLead` (quarantine) table, the user
table and the activity log.  `timezone.now()` is modelled by an explicit `now : Nat`
argument, database auto-increment primary keys by `next_lead_id` / `next_pulled_id`
counters, and row deletion by primary key by filtering the id out of the table list.
-/

namespace Saumata

/-- `utils.constants.UserRole` -/
inductive UserRole where
  | LEAD_DISTRIBUTER
  | FRANCHISE_CALLER
  | PACKAGE_CALLER
  | TEAM_LEADER
  | SUPER_ADMIN
deriving DecidableEq, Repr

/-- `utils.constants.LeadType` -/
inductive LeadType where
  | FRANCHISE
  | PACKAGE
deriving DecidableEq, Repr

/-- `utils.constants.LeadStatus` -/
inductive LeadStatus where
  | NEW
  | CONTACTED
  | INTERESTED
  | NOT_INTERESTED
  | FOLLOW_UP
  | CONVERTED
  | LOST
deriving DecidableEq, Repr

/-- Rendering of a lead type, as Python string-formats the constant. -/
def LeadType.str : LeadType → String
  | .FRANCHISE => "FRANCHISE"
  | .PACKAGE => "PACKAGE"

/-- Rendering of a lead status, as Python string-formats the constant. -/
def LeadStatus.str : LeadStatus → String
  | .NEW => "NEW"
  | .CONTACTED => "CONTACTED"
  | .INTERESTED => "INTERESTED"
  | .NOT_INTERESTED => "NOT_INTERESTED"
  | .FOLLOW_UP => "FOLLOW_UP"
  | .CONVERTED => "CONVERTED"
  | .LOST => "LOST"

/-- A row of the externally owned user table (`apps.accounts.models.User`),
restricted to the fields this core reads. -/
structure User where
  id : Nat
  first_name : String
  last_name : String
  role : UserRole
  is_active : Bool
  is_present : Bool
deriving DecidableEq, Repr

/-- `User.get_full_name` as used in log strings. -/
def User.get_full_name (u : User) : String :=
  u.first_name ++ " " ++ u.last_name

instance : Inhabited User :=
  ⟨⟨0, "", "", UserRole.SUPER_ADMIN, false, false⟩⟩

/-- A row of the active lead table (`apps.leads.models.Lead`). -/
structure Lead where
  id : Nat
  name : String
  email : Option String
  phone : String
  company : Option String
  city : Option String
  state : Option String
  lead_type : LeadType
  status : LeadStatus
  assigned_to : Option Nat
  uploaded_by : Option Nat
  converted_by : Option Nat
  converted_at : Option Nat
  original_type : Option LeadType
  notes : Option String
  created_at : Nat
deriving DecidableEq, Repr

/-- The `filter_criteria` JSON blob stored on a quarantine row: the id-list
path stores the method tag, the id singleton and the moved flag; the filter
path stores the filters, the moved flag and the original lead id. -/
inductive FilterCriteria where
  | by_ids (lead_ids : List Nat) (deleted_from_lead_table : Bool)
  | by_filters (deleted_from_lead_table : Bool) (original_lead_id : Nat)
deriving DecidableEq, Repr

/-- A row of the quarantine table (`apps.leads.models.PulledLead`). -/
structure PulledLead where
  id : Nat
  original_lead_id : Option Nat
  name : String
  email : Option String
  phone : String
  company : Option String
  city : Option String
  state : Option String
  notes : Option String
  original_lead_type : LeadType
  original_status : LeadStatus
  pulled_by : Option Nat
  pulled_from : Option Nat
  pull_reason : String
  filter_criteria : FilterCriteria
  exported : Bool
  exported_at : Option Nat
  created_at : Nat
deriving DecidableEq, Repr

/-- A row of the activity log (`apps.leads.models.LeadActivity`). -/
structure LeadActivity where
  lead_id : Nat
  user : Option Nat
  activity_type : String
  description : String
  old_status : Option String
  new_status : Option String
deriving DecidableEq, Repr

/-- The persistent state: user table, active lead table, quarantine table,
activity log, and the auto-increment counters of the two lead tables. -/
structure DB where
  users : List User
  leads : List Lead
  pulled : List PulledLead
  activities : List LeadActivity
  next_lead_id : Nat
  next_pulled_id : Nat
deriving DecidableEq, Repr

/-- Python `f"{x}"` on a nullable text field renders `None` as the string
`"None"`, which the pull log inherits when the source lead has no notes. -/
def optStr : Option String → String
  | none => "None"
  | some s => s

/-- `.strip() or None`: a blank (after trimming) string becomes NULL. -/
def blankToNone (s : String) : Option String :=
  if s.trim = "" then none else some s.trim

/-- `''.join(filter(str.isdigit, phone))` -/
def digitsOnly (s : String) : String :=
  String.mk (s.toList.filter Char.isDigit)

/-- Phone cleaning of `LeadDistributionService.distribute_leads` lines 68-74:
keep digits; drop a leading country code `91` from a 12-digit number; otherwise
keep the last 10 digits of an over-long number.  Python string length and
`startswith` are expressed over the character list. -/
def normalize_phone (raw : String) : String :=
  let phone := digitsOnly raw
  if phone.toList.take 2 = ['9', '1'] && phone.toList.length == 12 then
    String.mk (phone.toList.drop 2)
  else if phone.toList.length > 10 then
    String.mk (phone.toList.drop (phone.toList.length - 10))
  else
    phone

/-- Phone validation of `distribute_leads` line 77: exactly 10 digits starting
with 6, 7, 8 or 9. -/
def valid_phone (phone : String) : Bool :=
  phone.toList.length == 10 &&
    (match phone.toList.head? with
     | some c => c == '6' || c == '7' || c == '8' || c == '9'
     | none => false)

/-- Ascending insertion by user id (stable). -/
def insertById (u : User) : List User → List User
  | [] => [u]
  | v :: vs => if u.id ≤ v.id then u :: v :: vs else v :: insertById u vs

/-- `order_by('id')` on a user queryset. -/
def sortById (l : List User) : List User :=
  l.foldr insertById []

/-- `LeadDistributionService.get_callers_by_type`: active users with the
caller role of the lead type, restricted to present users unless overridden,
ordered by id. -/
def get_callers_by_type (users : List User) (lead_type : LeadType)
    (include_non_present : Bool) : List User :=
  let role := match lead_type with
    | LeadType.FRANCHISE => UserRole.FRANCHISE_CALLER
    | LeadType.PACKAGE => UserRole.PACKAGE_CALLER
  let qs := users.filter (fun u => u.role == role && u.is_active)
  let qs := if include_non_present then qs else qs.filter (fun u => u.is_present)
  sortById qs

/-- One raw record from the external tabular row source (`leads_data` entries);
missing keys are modelled as the empty string, matching Python falsiness. -/
structure RawLead where
  name : String
  phone : String
  email : String
  company : String
  city : String
  state : String
  notes : String
deriving DecidableEq, Repr

/-- Folding state of the distribution loop: the database, the created leads in
creation order, and the round-robin `caller_index`. -/
structure DistAcc where
  db : DB
  created_leads : List Lead
  caller_index : Nat
deriving DecidableEq, Repr

/-- The lead row created for one validated record in `distribute_leads`. -/
def mkDistributedLead (db : DB) (now : Nat) (lead_data : RawLead) (phone : String)
    (lead_type : LeadType) (assigned_caller uploaded_by : User) : Lead :=
  { id := db.next_lead_id
    name := lead_data.name.trim
    email := blankToNone lead_data.email
    phone := phone
    company := blankToNone lead_data.company
    city := blankToNone lead_data.city
    state := blankToNone lead_data.state
    lead_type := lead_type
    status := LeadStatus.NEW
    assigned_to := some assigned_caller.id
    uploaded_by := some uploaded_by.id
    converted_by := none
    converted_at := none
    original_type := none
    notes := blankToNone lead_data.notes
    created_at := now }

/-- Loop body of `LeadDistributionService.distribute_leads` (lines 57-112):
skip blank name/phone, clean and validate the phone, pick the round-robin
caller, skip duplicates of an existing active phone, else create the lead and
its activity entry and advance the rotation index. -/
def distribute_step (callers : List User) (lead_type : LeadType) (uploaded_by : User)
    (now : Nat) (acc : DistAcc) (lead_data : RawLead) : DistAcc :=
  if lead_data.name = "" || lead_data.phone = "" then acc
  else
    let phone := normalize_phone lead_data.phone
    if valid_phone phone = false then acc
    else
      let assigned_caller := callers.getD (acc.caller_index % callers.length) default
      if acc.db.leads.any (fun l => l.phone == phone) then acc
      else
        let lead := mkDistributedLead acc.db now lead_data phone lead_type
          assigned_caller uploaded_by
        let activity : LeadActivity :=
          { lead_id := lead.id
            user := some uploaded_by.id
            activity_type := "NOTE"
            description :=
              "Lead auto-distributed and assigned to " ++ assigned_caller.get_full_name
            old_status := none
            new_status := none }
        { db := { acc.db with
                    leads := acc.db.leads ++ [lead]
                    activities := acc.db.activities ++ [activity]
                    next_lead_id := acc.db.next_lead_id + 1 }
          created_leads := acc.created_leads ++ [lead]
          caller_index := acc.caller_index + 1 }

/-- `LeadDistributionService.distribute_leads`: resolve the present callers of
the lead type (failing with a diagnostic message when none qualify), then
fold the round-robin creation loop over the rows. -/
def distribute_leads (db : DB) (now : Nat) (leads_data : List RawLead)
    (lead_type : LeadType) (uploaded_by : User) : Except String (DB × List Lead) :=
  let callers := get_callers_by_type db.users lead_type false
  if callers.isEmpty then
    let all_callers := get_callers_by_type db.users lead_type true
    if all_callers.isEmpty then
      Except.error ("No active " ++ lead_type.str ++ " callers found")
    else
      let non_present := all_callers.filter (fun u => u.is_present = false)
      Except.error ("No active and present " ++ lead_type.str ++ " callers found. "
        ++ toString non_present.length ++ " caller(s) are marked as not present.")
  else
    let res := leads_data.foldl (distribute_step callers lead_type uploaded_by now)
      ⟨db, [], 0⟩
    Except.ok (res.db, res.created_leads)

/-- `LeadConversionService.convert_lead`: refuse converting to the current
type; resolve the assignee from the present caller pool when not given; then
unconditionally record `original_type := lead_type` and update type, assignee,
converter and timestamp, returning the updated row and the activity entry. -/
def convert_lead (users : List User) (lead : Lead) (new_type : LeadType)
    (converted_by : User) (notes : String) (assigned_to : Option User)
    (now : Nat) : Except String (Lead × LeadActivity) :=
  if lead.lead_type == new_type then
    Except.error "Lead is already of this type"
  else
    let assignee := match assigned_to with
      | some u => some u
      | none => (get_callers_by_type users new_type false).head?
    match assignee with
    | none => Except.error ("No active " ++ new_type.str ++ " callers found")
    | some a =>
      let lead' := { lead with
        original_type := some lead.lead_type
        lead_type := new_type
        assigned_to := some a.id
        converted_by := some converted_by.id
        converted_at := some now }
      let activity : LeadActivity :=
        { lead_id := lead.id
          user := some converted_by.id
          activity_type := "CONVERSION"
          description := "Lead converted from " ++ lead.lead_type.str ++ " to "
            ++ new_type.str ++ ". " ++ notes
          old_status := some lead.lead_type.str
          new_status := some new_type.str }
      Except.ok (lead', activity)

/-- One entry of the `failed_leads` list of the pull services. -/
structure PullFailure where
  lead_id : Nat
  reason : String
deriving DecidableEq, Repr

/-- One entry of the `deleted_leads` list: the id-list path records id, name,
phone, status, type and assignee name; the filter path records only id, name
and phone (the remaining fields stay `none`). -/
structure DeletedInfo where
  id : Nat
  name : String
  phone : String
  status : Option LeadStatus
  lead_type : Option LeadType
  assigned_to : Option String
deriving DecidableEq, Repr

/-- Folding state of the pull loops: database plus the three result lists. -/
structure PullAcc where
  db : DB
  pulled_leads : List PulledLead
  failed_leads : List PullFailure
  deleted_leads : List DeletedInfo
deriving DecidableEq, Repr

/-- `PulledLead.objects.filter(phone=…, pulled_from=…, exported=False).exists()`:
the quarantine-duplicate check performed before every pull. -/
def unexported_dup (pulled : List PulledLead) (phone : String)
    (assigned_to : Option Nat) : Bool :=
  pulled.any (fun p => p.phone == phone && p.pulled_from == assigned_to
    && p.exported == false)

/-- Assignee display name of a lead, via the user table. -/
def assigneeName (db : DB) (l : Lead) : Option String :=
  l.assigned_to.bind (fun aid =>
    (db.users.find? (fun u => u.id == aid)).map User.get_full_name)

/-- The quarantine row created by `pull_leads_by_ids` for one lead, including
the pull-log text appended to its notes before saving. -/
def mkPulledByIds (db : DB) (now : Nat) (lead : Lead) (pulled_by : User)
    (pull_reason : String) (lead_id : Nat) : PulledLead :=
  { id := db.next_pulled_id
    original_lead_id := some lead.id
    name := lead.name
    email := lead.email
    phone := lead.phone
    company := lead.company
    city := lead.city
    state := lead.state
    notes := some (optStr lead.notes
      ++ "\n\n--- PULL LOG ---\nLead MOVED (not copied) from Lead table.\nOriginal Lead ID: "
      ++ toString lead.id ++ "\nPulled by: " ++ pulled_by.get_full_name
      ++ "\nReason: " ++ pull_reason ++ "\nDate: " ++ toString now)
    original_lead_type := lead.lead_type
    original_status := lead.status
    pulled_by := some pulled_by.id
    pulled_from := lead.assigned_to
    pull_reason := pull_reason
    filter_criteria := FilterCriteria.by_ids [lead_id] true
    exported := false
    exported_at := none
    created_at := now }

/-- Loop body of `LeadPullService.pull_leads_by_ids` (lines 327-404): look the
lead up (failing with `Lead not found`), fail on an un-exported quarantine
duplicate for (phone, assignee), fail on an unassigned lead, else snapshot the
lead into quarantine and delete it from the active table. -/
def pull_step_by_id (pulled_by : User) (pull_reason : String) (now : Nat)
    (acc : PullAcc) (lead_id : Nat) : PullAcc :=
  match acc.db.leads.find? (fun l => l.id == lead_id) with
  | none =>
    { acc with failed_leads := acc.failed_leads ++ [⟨lead_id, "Lead not found"⟩] }
  | some lead =>
    if unexported_dup acc.db.pulled lead.phone lead.assigned_to then
      { acc with failed_leads :=
          acc.failed_leads ++ [⟨lead_id, "Lead already pulled and not exported"⟩] }
    else if lead.assigned_to == none then
      { acc with failed_leads := acc.failed_leads ++ [⟨lead_id, "Lead is not assigned"⟩] }
    else
      let p := mkPulledByIds acc.db now lead pulled_by pull_reason lead_id
      { db := { acc.db with
                  leads := acc.db.leads.filter (fun l => !(l.id == lead.id))
                  pulled := acc.db.pulled ++ [p]
                  next_pulled_id := acc.db.next_pulled_id + 1 }
        pulled_leads := acc.pulled_leads ++ [p]
        failed_leads := acc.failed_leads
        deleted_leads := acc.deleted_leads ++
          [⟨lead.id, lead.name, lead.phone, some lead.status, some lead.lead_type,
            assigneeName acc.db lead⟩] }

/-- `LeadPullService.pull_leads_by_ids`: per-item fold over the id list inside
one transaction. -/
def pull_leads_by_ids (db : DB) (now : Nat) (lead_ids : List Nat)
    (pulled_by : User) (pull_reason : String) : PullAcc :=
  lead_ids.foldl (pull_step_by_id pulled_by pull_reason now) ⟨db, [], [], []⟩

/-- The optional criteria of `pull_leads_by_filters`; absent dict keys and
Python-falsy values are `none`. -/
structure PullFilters where
  caller_id : Option Nat
  caller_ids : Option (List Nat)
  from_date : Option Nat
  to_date : Option Nat
  lead_type : Option LeadType
  status : Option LeadStatus
  statuses : Option (List LeadStatus)
  limit : Option Nat
  pull_reason : Option String
deriving DecidableEq, Repr

/-- The `Q` object built by `pull_leads_by_filters` lines 417-446, as a row
predicate.  FK conditions on `assigned_to__id` exclude unassigned leads;
an empty `caller_ids`/`statuses` list is Python-falsy and ignored. -/
def pull_filter_pred (f : PullFilters) (l : Lead) : Bool :=
  (match f.caller_id with
   | some cid => l.assigned_to == some cid
   | none =>
     match f.caller_ids with
     | some cids =>
       if cids.isEmpty then true
       else match l.assigned_to with
         | some a => cids.contains a
         | none => false
     | none => true) &&
  (match f.from_date with
   | some d => decide (d ≤ l.created_at)
   | none => true) &&
  (match f.to_date with
   | some d => decide (l.created_at ≤ d)
   | none => true) &&
  (match f.lead_type with
   | some t => l.lead_type == t
   | none => true) &&
  (match f.status with
   | some s => l.status == s
   | none =>
     match f.statuses with
     | some ss => if ss.isEmpty then true else ss.contains l.status
     | none => true)

/-- Stable descending insertion by creation time. -/
def insertByCreatedDesc (x : Lead) : List Lead → List Lead
  | [] => [x]
  | y :: ys =>
    if y.created_at < x.created_at then x :: y :: ys
    else y :: insertByCreatedDesc x ys

/-- `order_by('-created_at')` on a lead queryset (newest first, stable). -/
def sortByCreatedDesc (l : List Lead) : List Lead :=
  l.foldr insertByCreatedDesc []

/-- The leads selected by `pull_leads_by_filters`:
`Lead.objects.filter(query).order_by('-created_at')[:limit]` with the default
cap of 300. -/
def select_pull_candidates (db : DB) (f : PullFilters) : List Lead :=
  (sortByCreatedDesc (db.leads.filter (pull_filter_pred f))).take (f.limit.getD 300)

/-- The quarantine row created by `pull_leads_by_filters` for one lead. -/
def mkPulledByFilters (db : DB) (now : Nat) (lead : Lead) (pulled_by : User)
    (f : PullFilters) : PulledLead :=
  { id := db.next_pulled_id
    original_lead_id := some lead.id
    name := lead.name
    email := lead.email
    phone := lead.phone
    company := lead.company
    city := lead.city
    state := lead.state
    notes := some (optStr lead.notes
      ++ "\n\n--- PULL LOG ---\nLead MOVED from Lead table.\nOriginal Lead ID: "
      ++ toString lead.id ++ "\nPulled using filters\nDate: " ++ toString now)
    original_lead_type := lead.lead_type
    original_status := lead.status
    pulled_by := some pulled_by.id
    pulled_from := lead.assigned_to
    pull_reason := (f.pull_reason).getD ""
    filter_criteria := FilterCriteria.by_filters true lead.id
    exported := false
    exported_at := none
    created_at := now }

/-- Loop body of `pull_leads_by_filters` (lines 461-516): silently skip leads
with an un-exported quarantine duplicate, else snapshot-and-delete.  Unlike the
id-list path there is no unassigned check. -/
def pull_step_by_filter (f : PullFilters) (pulled_by : User) (now : Nat)
    (acc : PullAcc) (lead : Lead) : PullAcc :=
  if unexported_dup acc.db.pulled lead.phone lead.assigned_to then acc
  else
    let p := mkPulledByFilters acc.db now lead pulled_by f
    { db := { acc.db with
                leads := acc.db.leads.filter (fun l => !(l.id == lead.id))
                pulled := acc.db.pulled ++ [p]
                next_pulled_id := acc.db.next_pulled_id + 1 }
      pulled_leads := acc.pulled_leads ++ [p]
      failed_leads := acc.failed_leads
      deleted_leads := acc.deleted_leads ++
        [⟨lead.id, lead.name, lead.phone, none, none, none⟩] }

/-- `LeadPullService.pull_leads_by_filters`: select the capped, newest-first
candidate list, then fold the per-row move over it. -/
def pull_leads_by_filters (db : DB) (now : Nat) (f : PullFilters)
    (pulled_by : User) : PullAcc :=
  (select_pull_candidates db f).foldl (pull_step_by_filter f pulled_by now)
    ⟨db, [], [], []⟩

/-- The filters accepted by `export_pulled_leads_to_excel`; absent or
Python-falsy query parameters are `none`. -/
structure ExportFilters where
  lead_type : Option LeadType
  from_date : Option Nat
  to_date : Option Nat
  caller_id : Option Nat
deriving DecidableEq, Repr

/-- The `Q` object of `export_pulled_leads_to_excel` lines 545-564: optional id
list (Python-falsy when empty), original lead type, creation date range, and
pulling user. -/
def export_pred (ids : Option (List Nat)) (f : ExportFilters)
    (p : PulledLead) : Bool :=
  (match ids with
   | some l => if l.isEmpty then true else l.contains p.id
   | none => true) &&
  (match f.lead_type with
   | some t => p.original_lead_type == t
   | none => true) &&
  (match f.from_date with
   | some d => decide (d ≤ p.created_at)
   | none => true) &&
  (match f.to_date with
   | some d => decide (p.created_at ≤ d)
   | none => true) &&
  (match f.caller_id with
   | some c => p.pulled_by == some c
   | none => true)

/-- One row of the generated Excel sheet (`None` text fields become `""`). -/
structure ExportRow where
  name : String
  email : String
  phone : String
  company : String
  city : String
  state : String
deriving DecidableEq, Repr

/-- One sheet row built from a quarantine row (`None` text fields become `""`). -/
def exportRowOf (p : PulledLead) : ExportRow :=
  ⟨p.name, p.email.getD "", p.phone, p.company.getD "", p.city.getD "", p.state.getD ""⟩

/-- The `.update(exported=True, exported_at=now)` applied to a matched row. -/
def exportUpd (now : Nat) (ids : Option (List Nat)) (f : ExportFilters)
    (p : PulledLead) : PulledLead :=
  if export_pred ids f p then { p with exported := true, exported_at := some now }
  else p

/-- `LeadPullService.export_pulled_leads_to_excel`: select the matching
quarantine rows; with no match return the `No lead found to export` error;
otherwise build the sheet rows and then mark every matched row
`exported=True, exported_at=now`, regardless of its prior exported state. -/
def export_pulled_leads_to_excel (db : DB) (now : Nat) (ids : Option (List Nat))
    (f : ExportFilters) : Except String (List ExportRow × DB) :=
  let matched := db.pulled.filter (export_pred ids f)
  if matched.isEmpty then
    Except.error "No lead found to export"
  else
    let rows := matched.map exportRowOf
    let pulled' := db.pulled.map (exportUpd now ids f)
    Except.ok (rows, { db with pulled := pulled' })

/-- One record of `get_pulled_leads_for_upload`. -/
structure UploadRow where
  name : String
  email : Option String
  phone : String
  company : Option String
  city : Option String
  state : Option String
  notes : Option String
deriving DecidableEq, Repr

/-- `LeadPullService.get_pulled_leads_for_upload`: only rows with
`exported=True` are returned for uploading. -/
def get_pulled_leads_for_upload (db : DB) (pulled_lead_ids : List Nat) :
    List UploadRow :=
  (db.pulled.filter (fun p => pulled_lead_ids.contains p.id && p.exported)).map
    (fun p => UploadRow.mk p.name p.email p.phone p.company p.city p.state p.notes)

/-- One entry of the `failed_transfers` list (the phone key is present only in
the duplicate-phone case). -/
structure TransferFailure where
  pulled_lead_id : Nat
  phone : Option String
  reason : String
deriving DecidableEq, Repr

/-- One entry of the `transferred_leads` summary list. -/
structure TransferInfo where
  new_lead_id : Nat
  original_pulled_lead_id : Nat
  name : String
  phone : String
  assigned_to : String
  lead_type : LeadType
  status : LeadStatus
deriving DecidableEq, Repr

/-- Folding state of the transfer loop. -/
structure TransferAcc where
  db : DB
  transferred_leads : List TransferInfo
  failed_transfers : List TransferFailure
deriving DecidableEq, Repr

/-- The active lead created by `transfer_pulled_leads` from one quarantine
row: original type restored, status reset to NEW, the given assignee, and
transfer provenance appended to the notes. -/
def mkTransferredLead (db : DB) (now : Nat) (p : PulledLead)
    (pulled_lead_id : Nat) (assigned_to transferred_by : User)
    (notes : String) : Lead :=
  { id := db.next_lead_id
    name := p.name
    email := p.email
    phone := p.phone
    company := p.company
    city := p.city
    state := p.state
    lead_type := p.original_lead_type
    status := LeadStatus.NEW
    assigned_to := some assigned_to.id
    uploaded_by := some transferred_by.id
    converted_by := none
    converted_at := none
    original_type := none
    notes := some ((p.notes.getD "")
      ++ "\n\n--- TRANSFERRED FROM PULLED LEADS ---\nOriginal PulledLead ID: "
      ++ toString pulled_lead_id ++ "\nOriginal Status: " ++ p.original_status.str
      ++ "\nTransferred by: " ++ transferred_by.get_full_name
      ++ "\nDate: " ++ toString now ++ "\nNotes: " ++ notes)
    created_at := now }

/-- Display name of the agent a quarantine row was pulled from. -/
def pulledFromName (db : DB) (p : PulledLead) : String :=
  match p.pulled_from.bind (fun aid =>
    (db.users.find? (fun u => u.id == aid)).map User.get_full_name) with
  | some n => n
  | none => "Unknown"

/-- Loop body of `LeadTransferService.transfer_pulled_leads` (lines 699-759):
look the quarantine row up (failing with `Pulled lead not found`), reject a
phone already present in the active table, else create the new active lead,
log the activity, and delete the quarantine row.  The `exported` flag is never
consulted. -/
def transfer_step (assigned_to transferred_by : User) (notes : String)
    (now : Nat) (acc : TransferAcc) (pulled_lead_id : Nat) : TransferAcc :=
  match acc.db.pulled.find? (fun p => p.id == pulled_lead_id) with
  | none =>
    { acc with failed_transfers :=
        acc.failed_transfers ++ [⟨pulled_lead_id, none, "Pulled lead not found"⟩] }
  | some p =>
    if acc.db.leads.any (fun l => l.phone == p.phone) then
      { acc with failed_transfers := acc.failed_transfers ++
          [⟨pulled_lead_id, some p.phone,
            "Lead with this phone already exists in Lead table"⟩] }
    else
      let lead := mkTransferredLead acc.db now p pulled_lead_id assigned_to
        transferred_by notes
      let activity : LeadActivity :=
        { lead_id := lead.id
          user := some transferred_by.id
          activity_type := "TRANSFER"
          description := "Lead transferred from PulledLeads database. Originally pulled from: "
            ++ pulledFromName acc.db p ++ ". Assigned to: "
            ++ assigned_to.get_full_name ++ "."
          old_status := none
          new_status := none }
      { db := { acc.db with
                  leads := acc.db.leads ++ [lead]
                  pulled := acc.db.pulled.filter (fun q => !(q.id == p.id))
                  activities := acc.db.activities ++ [activity]
                  next_lead_id := acc.db.next_lead_id + 1 }
        transferred_leads := acc.transferred_leads ++
          [⟨lead.id, pulled_lead_id, lead.name, lead.phone,
            assigned_to.get_full_name, lead.lead_type, lead.status⟩]
        failed_transfers := acc.failed_transfers }

/-- `LeadTransferService.transfer_pulled_leads`: per-item fold over the
quarantine id list inside one transaction. -/
def transfer_pulled_leads (db : DB) (now : Nat) (pulled_lead_ids : List Nat)
    (assigned_to transferred_by : User) (notes : String) : TransferAcc :=
  pulled_lead_ids.foldl (transfer_step assigned_to transferred_by notes now)
    ⟨db, [], []⟩

/-! ### Shared fixtures for witnesses and counterexamples -/

/-- A present, active franchise caller with id 1. -/
def sampleAgent : User := ⟨1, "Asha", "K", UserRole.FRANCHISE_CALLER, true, true⟩

/-- A present, active franchise caller with id 2. -/
def sampleAgentB : User := ⟨2, "Binu", "M", UserRole.FRANCHISE_CALLER, true, true⟩

/-- A super-admin user with id 9. -/
def sampleAdmin : User := ⟨9, "Sia", "R", UserRole.SUPER_ADMIN, true, true⟩

/-- An active franchise lead with id 1 assigned to `sampleAgent`. -/
def sampleLead : Lead := ⟨1, "Lal", none, "9876543210", none, none, none,
  LeadType.FRANCHISE, LeadStatus.NEW, some 1, some 9, none, none, none, none, 5⟩

/-- A database with the three sample users and the one sample lead. -/
def sampleDB : DB := ⟨[sampleAgent, sampleAgentB, sampleAdmin], [sampleLead], [], [], 2, 1⟩

/-! ### Helper lemmas -/

theorem foldl_inv {α σ : Type _} (step : σ → α → σ) (P : σ → Prop)
    (h : ∀ s a, P s → P (step s a)) :
    ∀ (l : List α) (s : σ), P s → P (l.foldl step s)
  | [], _, hs => hs
  | a :: l, s, hs => foldl_inv step P h l (step s a) (h s a hs)

theorem find?_append_of_none {α : Type _} (p : α → Bool) :
    ∀ (l₁ l₂ : List α), (∀ a ∈ l₁, p a = false) →
      (l₁ ++ l₂).find? p = l₂.find? p
  | [], _, _ => rfl
  | a :: l₁, l₂, h => by
    have ha : p a = false := h a (List.mem_cons_self a l₁)
    simp only [List.cons_append, List.find?, ha]
    exact find?_append_of_none p l₁ l₂ (fun b hb => h b (List.mem_cons_of_mem a hb))

theorem eq_of_mem_pairwise_key {α : Type _} (k : α → Nat) :
    ∀ (l : List α), l.Pairwise (fun a b => k a ≠ k b) →
      ∀ x ∈ l, ∀ q ∈ l, k q = k x → q = x := by
  intro l
  induction l with
  | nil => intro _ x hx; exact absurd hx (List.not_mem_nil x)
  | cons a t ih =>
    intro hp x hx q hq hkq
    rcases List.pairwise_cons.mp hp with ⟨ha, ht⟩
    rcases List.mem_cons.mp hx with hx1 | hx2 <;> rcases List.mem_cons.mp hq with hq1 | hq2
    · rw [hx1, hq1]
    · subst hx1; exact absurd hkq.symm (ha q hq2)
    · subst hq1; exact absurd hkq (ha x hx2)
    · exact ih ht x hx2 q hq2 hkq

/-- A lead that has already been converted once: it started as FRANCHISE
(recorded in `original_type`) and currently is a PACKAGE lead. -/
def sampleConvertedLead : Lead := ⟨1, "Lal", none, "9876543210", none, none, none,
  LeadType.PACKAGE, LeadStatus.NEW, some 1, some 9, some 9, some 3,
  some LeadType.FRANCHISE, none, 5⟩

/-- A quarantine row holding the same phone as `sampleLead`. -/
def samplePulled : PulledLead := ⟨1, some 7, "Lal", none, "9876543210", none, none,
  none, none, LeadType.FRANCHISE, LeadStatus.CONTACTED, some 9, some 1, "",
  FilterCriteria.by_ids [7] true, false, none, 5⟩

/-- A database where `samplePulled` is quarantined while an active lead
(`sampleLead`) already holds its phone. -/
def sampleDupDB : DB :=
  ⟨[sampleAgent, sampleAgentB, sampleAdmin], [sampleLead], [samplePulled], [], 2, 2⟩

/-! ### C7: conversion and `original_type` -/

/-- C7 counterexample: `sampleConvertedLead` was first a FRANCHISE lead
(`original_type = some FRANCHISE`) and was already converted once to PACKAGE.
Converting it again (back to FRANCHISE) does NOT leave `original_type`
unchanged: `convert_lead` overwrites it with the pre-conversion type PACKAGE,
so it no longer records the very first category, contradicting the claim. -/
theorem convert_second_conversion_counterexample :
    ∃ lead' act,
      convert_lead [] sampleConvertedLead LeadType.FRANCHISE sampleAdmin ""
        (some sampleAgent) 7 = Except.ok (lead', act) ∧
      lead'.original_type = some LeadType.PACKAGE ∧
      ¬ lead'.original_type = some LeadType.FRANCHISE := by
  refine ⟨_, _, rfl, rfl, by decide⟩

/-- C7 (amended): every successful conversion with an explicit assignee sets
`original_type` to the category held immediately before that conversion
(overwriting any previously recorded value), and updates category, assignee,
converter and timestamp. -/
theorem convert_overwrites_original_type (users : List User) (lead : Lead)
    (new_type : LeadType) (cb : User) (notes : String) (x : User) (now : Nat)
    (hne : lead.lead_type ≠ new_type) :
    ∃ act, convert_lead users lead new_type cb notes (some x) now =
      Except.ok ({ lead with
        original_type := some lead.lead_type
        lead_type := new_type
        assigned_to := some x.id
        converted_by := some cb.id
        converted_at := some now }, act) := by
  have hb : (lead.lead_type == new_type) = false := beq_eq_false_iff_ne.mpr hne
  refine ⟨{ lead_id := lead.id
            user := some cb.id
            activity_type := "CONVERSION"
            description := "Lead converted from " ++ lead.lead_type.str ++ " to "
              ++ new_type.str ++ ". " ++ notes
            old_status := some lead.lead_type.str
            new_status := some new_type.str }, ?_⟩
  unfold convert_lead
  simp only [hb, Bool.false_eq_true, if_false]

/-- C7 witness: the amended theorem applied to `sampleConvertedLead`. -/
theorem convert_overwrites_original_type_witness :
    sampleConvertedLead.lead_type ≠ LeadType.FRANCHISE ∧
    ∃ act, convert_lead [] sampleConvertedLead LeadType.FRANCHISE sampleAdmin "note"
        (some sampleAgentB) 7 =
      Except.ok ({ sampleConvertedLead with
        original_type := some sampleConvertedLead.lead_type
        lead_type := LeadType.FRANCHISE
        assigned_to := some sampleAgentB.id
        converted_by := some sampleAdmin.id
        converted_at := some 7 }, act) :=
  ⟨by decide, convert_overwrites_original_type [] sampleConvertedLead
    LeadType.FRANCHISE sampleAdmin "note" sampleAgentB 7 (by decide)⟩

/-! ### C8: transfer duplicate-phone guard -/

/-- C8: at any point of a transfer batch, if the quarantine row looked up for
an id has a phone that already belongs to an active lead, the per-item step
only records a conflict failure: the database (both stores) is untouched, no
new active lead is created, and the quarantine row remains. -/
theorem transfer_duplicate_guard (X T : User) (notes : String) (now : Nat)
    (acc : TransferAcc) (pid : Nat) (p : PulledLead)
    (hfind : acc.db.pulled.find? (fun q => q.id == pid) = some p)
    (hdup : acc.db.leads.any (fun l => l.phone == p.phone) = true) :
    transfer_step X T notes now acc pid =
      { acc with failed_transfers := acc.failed_transfers ++
          [⟨pid, some p.phone, "Lead with this phone already exists in Lead table"⟩] } := by
  unfold transfer_step
  rw [hfind]
  simp [hdup]

/-- C8 witness: the guard applied in `sampleDupDB`, where `samplePulled`
shares its phone with the active `sampleLead`. -/
theorem transfer_duplicate_guard_witness :
    transfer_step sampleAgentB sampleAdmin "" 9 ⟨sampleDupDB, [], []⟩ 1 =
      { db := sampleDupDB
        transferred_leads := []
        failed_transfers :=
          [⟨1, some samplePulled.phone, "Lead with this phone already exists in Lead table"⟩] } :=
  transfer_duplicate_guard sampleAgentB sampleAdmin "" 9 ⟨sampleDupDB, [], []⟩ 1
    samplePulled (by rfl) (by rfl)

/-! ### C10: transfer does not require prior export -/

/-- A quarantine row with `exported = false` and a phone not present among
the active leads of `sampleDB`. -/
def sampleUnexported : PulledLead := ⟨1, some 7, "Mo", none, "9123456780", none,
  none, none, none, LeadType.PACKAGE, LeadStatus.CONTACTED, some 9, some 1, "",
  FilterCriteria.by_ids [7] true, false, none, 5⟩

/-- A database quarantining the un-exported `sampleUnexported` row. -/
def sampleUnexpDB : DB :=
  ⟨[sampleAgent, sampleAgentB, sampleAdmin], [sampleLead], [sampleUnexported], [], 2, 2⟩

/-- C10: a quarantine row with `exported = false` and no active duplicate
phone is transferred successfully — the new active lead is created (original
type restored, status NEW, the requested assignee) and the quarantine row is
deleted; the `exported` flag is never consulted by `transfer_pulled_leads`,
even though `get_pulled_leads_for_upload` returns nothing for the same row. -/
theorem transfer_ignores_exported (db : DB) (now : Nat) (pid : Nat)
    (X T : User) (notes : String) (p : PulledLead)
    (hfind : db.pulled.find? (fun q => q.id == pid) = some p)
    (hexp : p.exported = false)
    (hdup : db.leads.any (fun l => l.phone == p.phone) = false)
    (hids : db.pulled.Pairwise (fun a b => a.id ≠ b.id)) :
    (transfer_pulled_leads db now [pid] X T notes).transferred_leads.length = 1 ∧
    (∃ nl, (transfer_pulled_leads db now [pid] X T notes).db.leads = db.leads ++ [nl] ∧
      nl.phone = p.phone ∧ nl.status = LeadStatus.NEW ∧
      nl.lead_type = p.original_lead_type ∧ nl.assigned_to = some X.id) ∧
    (transfer_pulled_leads db now [pid] X T notes).db.pulled.countP
      (fun q => q.id == pid) = 0 ∧
    get_pulled_leads_for_upload db [pid] = [] := by
  have hpidmem : p ∈ db.pulled := List.mem_of_find?_eq_some hfind
  have hpid : p.id = pid := by
    have := List.find?_some hfind
    simpa using this
  have hstep : transfer_pulled_leads db now [pid] X T notes =
      transfer_step X T notes now ⟨db, [], []⟩ pid := rfl
  rw [hstep]
  unfold transfer_step
  rw [hfind]
  simp only [hdup, Bool.false_eq_true, if_false]
  refine ⟨rfl, ⟨mkTransferredLead db now p pid X T notes, rfl, rfl, rfl, rfl, rfl⟩, ?_, ?_⟩
  · rw [List.countP_filter]
    apply List.countP_eq_zero.mpr
    intro q _
    simp [hpid]
  · unfold get_pulled_leads_for_upload
    have hnil : db.pulled.filter (fun q => [pid].contains q.id && q.exported) = [] := by
      apply List.filter_eq_nil_iff.mpr
      intro q hq
      by_cases hcase : q.id = pid
      · have hqp : q = p := eq_of_mem_pairwise_key (fun a => a.id) db.pulled hids
          p hpidmem q hq (hcase.trans hpid.symm)
        simp [hqp, hexp]
      · simp [List.contains, hcase]
    rw [hnil]
    rfl

/-- C10 witness: `sampleUnexported` (never exported) transfers successfully
out of `sampleUnexpDB`. -/
theorem transfer_ignores_exported_witness :
    (transfer_pulled_leads sampleUnexpDB 9 [1] sampleAgentB sampleAdmin "n").transferred_leads.length = 1 ∧
    (∃ nl, (transfer_pulled_leads sampleUnexpDB 9 [1] sampleAgentB sampleAdmin "n").db.leads =
        sampleUnexpDB.leads ++ [nl] ∧
      nl.phone = sampleUnexported.phone ∧ nl.status = LeadStatus.NEW ∧
      nl.lead_type = sampleUnexported.original_lead_type ∧
      nl.assigned_to = some sampleAgentB.id) ∧
    (transfer_pulled_leads sampleUnexpDB 9 [1] sampleAgentB sampleAdmin "n").db.pulled.countP
      (fun q => q.id == 1) = 0 ∧
    get_pulled_leads_for_upload sampleUnexpDB [1] = [] :=
  transfer_ignores_exported sampleUnexpDB 9 1 sampleAgentB sampleAdmin "n"
    sampleUnexported (by rfl) (by rfl) (by rfl) (by decide)

/-! ### C9: export marks matched rows and is idempotent -/

theorem export_pred_upd (now : Nat) (ids : Option (List Nat)) (f : ExportFilters)
    (p : PulledLead) : export_pred ids f (exportUpd now ids f p) = export_pred ids f p := by
  unfold exportUpd
  by_cases h : export_pred ids f p = true
  · rw [if_pos h]
    unfold export_pred
    rcases f with ⟨flt, ffrom, fto, fcaller⟩
    cases ids <;> cases flt <;> cases ffrom <;> cases fto <;> cases fcaller <;> rfl
  · rw [if_neg h]

theorem exportRowOf_upd (now : Nat) (ids : Option (List Nat)) (f : ExportFilters)
    (p : PulledLead) : exportRowOf (exportUpd now ids f p) = exportRowOf p := by
  unfold exportUpd
  by_cases h : export_pred ids f p = true
  · rw [if_pos h]
    rfl
  · rw [if_neg h]

/-- C9: every export call matching at least one quarantine row succeeds and
sets `exported = true, exported_at = now` on every matched row, regardless of
each row's prior exported state; a second export of the same selection yields
the very same sheet rows, updates `exported_at` again, and leaves the number
of quarantine rows unchanged (no duplicates). -/
theorem export_idempotent (db : DB) (now1 now2 : Nat) (ids : Option (List Nat))
    (f : ExportFilters)
    (h : db.pulled.any (export_pred ids f) = true) :
    ∃ rows db1 db2,
      export_pulled_leads_to_excel db now1 ids f = Except.ok (rows, db1) ∧
      (∀ p ∈ db1.pulled, export_pred ids f p = true →
        p.exported = true ∧ p.exported_at = some now1) ∧
      export_pulled_leads_to_excel db1 now2 ids f = Except.ok (rows, db2) ∧
      (∀ p ∈ db2.pulled, export_pred ids f p = true →
        p.exported = true ∧ p.exported_at = some now2) ∧
      db1.pulled.length = db.pulled.length ∧
      db2.pulled.length = db.pulled.length := by
  rcases List.any_eq_true.mp h with ⟨a, ha, hpa⟩
  have hmem1 : a ∈ db.pulled.filter (export_pred ids f) := List.mem_filter.mpr ⟨ha, hpa⟩
  have hne1 : (db.pulled.filter (export_pred ids f)).isEmpty = false := by
    cases hfe : db.pulled.filter (export_pred ids f) with
    | nil => rw [hfe] at hmem1; exact absurd hmem1 (List.not_mem_nil a)
    | cons x xs => rfl
  have hcomp : ∀ q : PulledLead,
      (export_pred ids f (exportUpd now1 ids f q)) = export_pred ids f q :=
    export_pred_upd now1 ids f
  have hfilter1 : (db.pulled.map (exportUpd now1 ids f)).filter (export_pred ids f) =
      (db.pulled.filter (export_pred ids f)).map (exportUpd now1 ids f) := by
    rw [List.filter_map]
    congr 1
    apply List.filter_congr
    intro q _
    exact (hcomp q)
  have hne2 : ((db.pulled.map (exportUpd now1 ids f)).filter
      (export_pred ids f)).isEmpty = false := by
    rw [hfilter1]
    cases hfe : db.pulled.filter (export_pred ids f) with
    | nil => rw [hfe] at hmem1; exact absurd hmem1 (List.not_mem_nil a)
    | cons x xs => rfl
  have he1 : export_pulled_leads_to_excel db now1 ids f =
      Except.ok ((db.pulled.filter (export_pred ids f)).map exportRowOf,
        { db with pulled := db.pulled.map (exportUpd now1 ids f) }) := by
    unfold export_pulled_leads_to_excel
    simp only [hne1, Bool.false_eq_true, if_false]
  have hrows2 : ((db.pulled.map (exportUpd now1 ids f)).filter
      (export_pred ids f)).map exportRowOf =
      (db.pulled.filter (export_pred ids f)).map exportRowOf := by
    rw [hfilter1, List.map_map]
    apply List.map_congr_left
    intro q _
    exact exportRowOf_upd now1 ids f q
  have he2 : export_pulled_leads_to_excel
      { db with pulled := db.pulled.map (exportUpd now1 ids f) } now2 ids f =
      Except.ok ((db.pulled.filter (export_pred ids f)).map exportRowOf,
        { db with pulled := ((db.pulled.map (exportUpd now1 ids f)).map (exportUpd now2 ids f)) }) := by
    unfold export_pulled_leads_to_excel
    simp only [hne2, Bool.false_eq_true, if_false, hrows2]
  have hmarked : ∀ (nowa : Nat) (l : List PulledLead),
      ∀ p ∈ l.map (exportUpd nowa ids f), export_pred ids f p = true →
        p.exported = true ∧ p.exported_at = some nowa := by
    intro nowa l p hp hpred
    rcases List.mem_map.mp hp with ⟨q, _, hq⟩
    by_cases hcase : export_pred ids f q = true
    · rw [← hq]
      unfold exportUpd
      rw [if_pos hcase]
      exact ⟨rfl, rfl⟩
    · exfalso
      apply hcase
      rw [← export_pred_upd nowa ids f q, hq, hpred]
  refine ⟨(db.pulled.filter (export_pred ids f)).map exportRowOf,
    { db with pulled := db.pulled.map (exportUpd now1 ids f) },
    { db with pulled := ((db.pulled.map (exportUpd now1 ids f)).map (exportUpd now2 ids f)) },
    he1, hmarked now1 db.pulled, he2, hmarked now2 _, ?_, ?_⟩
  · exact List.length_map _ _
  · rw [List.length_map, List.length_map]

/-- C9 witness: exporting the single quarantine row of `sampleUnexpDB` by id
at time 20 and re-exporting at time 25. -/
theorem export_idempotent_witness :
    sampleUnexpDB.pulled.any (export_pred (some [1]) ⟨none, none, none, none⟩) = true ∧
    (∃ rows db1 db2,
      export_pulled_leads_to_excel sampleUnexpDB 20 (some [1]) ⟨none, none, none, none⟩ =
        Except.ok (rows, db1) ∧
      (∀ p ∈ db1.pulled, export_pred (some [1]) ⟨none, none, none, none⟩ p = true →
        p.exported = true ∧ p.exported_at = some 20) ∧
      export_pulled_leads_to_excel db1 25 (some [1]) ⟨none, none, none, none⟩ =
        Except.ok (rows, db2) ∧
      (∀ p ∈ db2.pulled, export_pred (some [1]) ⟨none, none, none, none⟩ p = true →
        p.exported = true ∧ p.exported_at = some 25) ∧
      db1.pulled.length = sampleUnexpDB.pulled.length ∧
      db2.pulled.length = sampleUnexpDB.pulled.length) :=
  ⟨by rfl, export_idempotent sampleUnexpDB 20 25 (some [1]) ⟨none, none, none, none⟩ (by rfl)⟩

/-! ### C1: pull-by-ids moves, it does not copy -/

/-- Invariant carried through the `pull_leads_by_ids` fold, watching the lead
id `I`: either no quarantine row for `I` has been produced yet (and none
references `I`), or the active store no longer holds `I` and exactly one
quarantine row references it. -/
def moveInv (I : Nat) (acc : PullAcc) : Prop :=
  (acc.pulled_leads.any (fun p => p.original_lead_id == some I) = false ∧
    acc.db.pulled.countP (fun p => p.original_lead_id == some I) = 0) ∨
  (acc.db.leads.countP (fun l => l.id == I) = 0 ∧
    acc.db.pulled.countP (fun p => p.original_lead_id == some I) = 1)

theorem countP_filter_zero {α : Type _} (l : List α) (p q : α → Bool)
    (h : ∀ a ∈ l, (p a && q a) = false) : (l.filter q).countP p = 0 := by
  rw [List.countP_filter]
  exact List.countP_eq_zero.mpr (fun a ha hpa => by rw [h a ha] at hpa; exact absurd hpa (by simp))

theorem pull_step_moveInv (u : User) (reason : String) (now : Nat) (I : Nat) :
    ∀ (acc : PullAcc) (j : Nat), moveInv I acc →
      moveInv I (pull_step_by_id u reason now acc j) := by
  intro acc j hinv
  unfold pull_step_by_id
  cases hfind : acc.db.leads.find? (fun l => l.id == j) with
  | none => exact hinv
  | some lead =>
    dsimp only
    by_cases hdup : unexported_dup acc.db.pulled lead.phone lead.assigned_to = true
    · simp only [hdup, if_true]
      exact hinv
    · rw [if_neg hdup]
      by_cases hass : (lead.assigned_to == none) = true
      · rw [if_pos hass]
        exact hinv
      · rw [if_neg hass]
        have hmem : lead ∈ acc.db.leads := List.mem_of_find?_eq_some hfind
        rcases hinv with ⟨hany, hcnt⟩ | ⟨hlead0, horig1⟩
        · by_cases hIl : lead.id = I
          · right
            constructor
            · exact countP_filter_zero _ _ _ (fun a _ => by
                by_cases ha : a.id = I
                · simp [ha, hIl]
                · simp [ha])
            · rw [List.countP_append, hcnt]
              simp [mkPulledByIds, hIl]
          · left
            constructor
            · rw [List.any_append, hany]
              simp [mkPulledByIds, hIl]
            · rw [List.countP_append, hcnt]
              simp [mkPulledByIds, hIl]
        · right
          have hlne : lead.id ≠ I := by
            intro hcontra
            have := List.countP_eq_zero.mp hlead0 lead hmem
            simp [hcontra] at this
          constructor
          · exact countP_filter_zero _ _ _ (fun a ha => by
              have := List.countP_eq_zero.mp hlead0 a ha
              simp at this
              simp [this])
          · rw [List.countP_append, horig1]
            simp [mkPulledByIds, hlne]

/-- C1: if a pull-by-ids call successfully pulled the lead with id `I`
(witnessed by a quarantine row for `I` in its `pulled_leads` output), and no
quarantine row referenced `I` beforehand, then afterwards the active store
holds no lead with id `I` and exactly one quarantine row has
`original_lead_id = I` — the row created by this same call. -/
theorem pull_by_ids_moves (db : DB) (now : Nat) (lead_ids : List Nat)
    (u : User) (reason : String) (I : Nat)
    (h0 : db.pulled.countP (fun p => p.original_lead_id == some I) = 0)
    (hsucc : (pull_leads_by_ids db now lead_ids u reason).pulled_leads.any
      (fun p => p.original_lead_id == some I) = true) :
    (pull_leads_by_ids db now lead_ids u reason).db.leads.countP
      (fun l => l.id == I) = 0 ∧
    (pull_leads_by_ids db now lead_ids u reason).db.pulled.countP
      (fun p => p.original_lead_id == some I) = 1 := by
  have hinv : moveInv I (pull_leads_by_ids db now lead_ids u reason) := by
    unfold pull_leads_by_ids
    exact foldl_inv _ (moveInv I)
      (fun s a hs => pull_step_moveInv u reason now I s a hs)
      lead_ids ⟨db, [], [], []⟩ (Or.inl ⟨rfl, h0⟩)
  rcases hinv with ⟨hany, _⟩ | hgoal
  · rw [hsucc] at hany
    exact absurd hany (by simp)
  · exact hgoal

/-- C1 witness: pulling the single lead of `sampleDB` by its id 1. -/
theorem pull_by_ids_moves_witness :
    sampleDB.pulled.countP (fun p => p.original_lead_id == some 1) = 0 ∧
    (pull_leads_by_ids sampleDB 10 [1] sampleAdmin "t").pulled_leads.any
      (fun p => p.original_lead_id == some 1) = true ∧
    ((pull_leads_by_ids sampleDB 10 [1] sampleAdmin "t").db.leads.countP
      (fun l => l.id == 1) = 0 ∧
    (pull_leads_by_ids sampleDB 10 [1] sampleAdmin "t").db.pulled.countP
      (fun p => p.original_lead_id == some 1) = 1) :=
  ⟨by rfl, by rfl, pull_by_ids_moves sampleDB 10 [1] sampleAdmin "t" 1 (by rfl) (by rfl)⟩

/-! ### C6: pulling the same lead twice -/

/-- C6 counterexample: pulling lead 1 of `sampleDB` succeeds; a second
pull-by-ids attempt for that same lead fails with reason `Lead not found` —
not with the duplicate-conflict reason `Lead already pulled and not exported`
asserted by the claim (the lead was moved out of the active store by the
first pull, so the id lookup fails before the duplicate check can fire). -/
theorem repeat_pull_reason_counterexample :
    (pull_leads_by_ids sampleDB 10 [1] sampleAdmin "t").pulled_leads.length = 1 ∧
    (pull_leads_by_ids (pull_leads_by_ids sampleDB 10 [1] sampleAdmin "t").db
      11 [1] sampleAdmin "t").failed_leads = [⟨1, "Lead not found"⟩] ∧
    ("Lead not found" : String) ≠ "Lead already pulled and not exported" :=
  ⟨rfl, rfl, by decide⟩

/-- C6 (amended): after a successful pull of lead `L`, a second pull-by-ids
attempt for the same lead id fails — with the not-found reason, since the
lead was moved out of the active store — and after both attempts exactly one
un-exported quarantine row exists for `L`'s (phone, source-agent) pair. -/
theorem repeat_pull_second_not_found (db : DB) (now1 now2 : Nat) (u : User)
    (reason : String) (L : Lead) (a : Nat)
    (hfind : db.leads.find? (fun l => l.id == L.id) = some L)
    (hass : L.assigned_to = some a)
    (hdup : unexported_dup db.pulled L.phone L.assigned_to = false) :
    (pull_leads_by_ids db now1 [L.id] u reason).pulled_leads.length = 1 ∧
    (pull_leads_by_ids (pull_leads_by_ids db now1 [L.id] u reason).db
      now2 [L.id] u reason).failed_leads = [⟨L.id, "Lead not found"⟩] ∧
    (pull_leads_by_ids (pull_leads_by_ids db now1 [L.id] u reason).db
      now2 [L.id] u reason).pulled_leads = [] ∧
    (pull_leads_by_ids (pull_leads_by_ids db now1 [L.id] u reason).db
      now2 [L.id] u reason).db.pulled.countP
      (fun p => p.phone == L.phone && p.pulled_from == L.assigned_to
        && p.exported == false) = 1 := by
  have hassne : (L.assigned_to == none) = false := by rw [hass]; rfl
  have hstep1 : pull_leads_by_ids db now1 [L.id] u reason =
      pull_step_by_id u reason now1 ⟨db, [], [], []⟩ L.id := rfl
  have hr1 : pull_leads_by_ids db now1 [L.id] u reason =
      ⟨{ db with
          leads := db.leads.filter (fun l => !(l.id == L.id))
          pulled := db.pulled ++ [mkPulledByIds db now1 L u reason L.id]
          next_pulled_id := db.next_pulled_id + 1 },
        [mkPulledByIds db now1 L u reason L.id], [],
        [⟨L.id, L.name, L.phone, some L.status, some L.lead_type, assigneeName db L⟩]⟩ := by
    rw [hstep1]
    unfold pull_step_by_id
    rw [hfind]
    dsimp only
    rw [if_neg (by rw [hdup]; simp), if_neg (by rw [hassne]; simp)]
    rfl
  have hfind2 : (db.leads.filter (fun l => !(l.id == L.id))).find?
      (fun l => l.id == L.id) = none := by
    apply List.find?_eq_none.mpr
    intro x hx
    have := List.of_mem_filter hx
    simp at this
    simp [this]
  have hcnt0 : db.pulled.countP
      (fun p => p.phone == L.phone && p.pulled_from == L.assigned_to
        && p.exported == false) = 0 := by
    apply List.countP_eq_zero.mpr
    intro q hq hpred
    have : unexported_dup db.pulled L.phone L.assigned_to = true := by
      unfold unexported_dup
      exact List.any_eq_true.mpr ⟨q, hq, hpred⟩
    rw [hdup] at this
    exact absurd this (by simp)
  rw [hr1]
  have hstep2 : ∀ (now2 : Nat),
      pull_leads_by_ids
        ({ db with
            leads := db.leads.filter (fun l => !(l.id == L.id))
            pulled := db.pulled ++ [mkPulledByIds db now1 L u reason L.id]
            next_pulled_id := db.next_pulled_id + 1 } : DB) now2 [L.id] u reason =
      ⟨{ db with
          leads := db.leads.filter (fun l => !(l.id == L.id))
          pulled := db.pulled ++ [mkPulledByIds db now1 L u reason L.id]
          next_pulled_id := db.next_pulled_id + 1 },
        [], [⟨L.id, "Lead not found"⟩], []⟩ := by
    intro now2
    show pull_step_by_id u reason now2 _ L.id = _
    unfold pull_step_by_id
    rw [hfind2]
    rfl
  rw [hstep2 now2]
  refine ⟨rfl, rfl, rfl, ?_⟩
  rw [List.countP_append, hcnt0]
  simp [mkPulledByIds]

/-- C6 witness: the amended theorem at `sampleDB` and its lead 1. -/
theorem repeat_pull_second_not_found_witness :
    (pull_leads_by_ids sampleDB 10 [sampleLead.id] sampleAdmin "t").pulled_leads.length = 1 ∧
    (pull_leads_by_ids (pull_leads_by_ids sampleDB 10 [sampleLead.id] sampleAdmin "t").db
      11 [sampleLead.id] sampleAdmin "t").failed_leads = [⟨sampleLead.id, "Lead not found"⟩] ∧
    (pull_leads_by_ids (pull_leads_by_ids sampleDB 10 [sampleLead.id] sampleAdmin "t").db
      11 [sampleLead.id] sampleAdmin "t").pulled_leads = [] ∧
    (pull_leads_by_ids (pull_leads_by_ids sampleDB 10 [sampleLead.id] sampleAdmin "t").db
      11 [sampleLead.id] sampleAdmin "t").db.pulled.countP
      (fun p => p.phone == sampleLead.phone && p.pulled_from == sampleLead.assigned_to
        && p.exported == false) = 1 :=
  repeat_pull_second_not_found sampleDB 10 11 sampleAdmin "t" sampleLead 1
    (by rfl) (by rfl) (by rfl)

/-! ### C2: active-store phone uniqueness is preserved -/

/-- Each normalized phone appears in at most one active lead row. -/
def PhoneUnique (leads : List Lead) : Prop :=
  leads.Pairwise (fun a b => a.phone ≠ b.phone)

theorem distribute_step_phoneUnique (callers : List User) (lt : LeadType)
    (u : User) (now : Nat) :
    ∀ (acc : DistAcc) (r : RawLead), PhoneUnique acc.db.leads →
      PhoneUnique (distribute_step callers lt u now acc r).db.leads := by
  intro acc r h
  unfold distribute_step
  dsimp only
  split
  · exact h
  · split
    · exact h
    · split
      · exact h
      · rename_i hdup
        refine List.pairwise_append.mpr ⟨h, List.pairwise_singleton _ _, ?_⟩
        intro x hx b hb
        rw [List.mem_singleton.mp hb]
        intro hphone
        apply hdup
        exact List.any_eq_true.mpr ⟨x, hx, by simp [mkDistributedLead] at hphone ⊢; exact hphone⟩

theorem transfer_step_phoneUnique (X T : User) (notes : String) (now : Nat) :
    ∀ (acc : TransferAcc) (pid : Nat), PhoneUnique acc.db.leads →
      PhoneUnique (transfer_step X T notes now acc pid).db.leads := by
  intro acc pid h
  unfold transfer_step
  cases hfind : acc.db.pulled.find? (fun q => q.id == pid) with
  | none => exact h
  | some p =>
    dsimp only
    by_cases hdup : acc.db.leads.any (fun l => l.phone == p.phone) = true
    · rw [if_pos hdup]
      exact h
    · rw [if_neg hdup]
      refine List.pairwise_append.mpr ⟨h, List.pairwise_singleton _ _, ?_⟩
      intro x hx b hb
      rw [List.mem_singleton.mp hb]
      intro hphone
      apply hdup
      exact List.any_eq_true.mpr ⟨x, hx, by simp [mkTransferredLead] at hphone ⊢; exact hphone⟩

/-- C2: starting from a state where each phone appears in at most one active
lead row, every distribute call (which re-checks the active store, including
rows created earlier in the same batch) and every transfer call (which rejects
quarantined leads whose phone is already active) yields a state where each
phone still appears in at most one active lead row. -/
theorem phone_uniqueness_invariant (db : DB) (now : Nat) (rows : List RawLead)
    (lt : LeadType) (u : User) (pids : List Nat) (X T : User) (tnotes : String)
    (h : PhoneUnique db.leads) :
    (∀ db' created, distribute_leads db now rows lt u = Except.ok (db', created) →
      PhoneUnique db'.leads) ∧
    PhoneUnique (transfer_pulled_leads db now pids X T tnotes).db.leads := by
  constructor
  · intro db' created hok
    unfold distribute_leads at hok
    dsimp only at hok
    split at hok
    · split at hok <;> exact absurd hok (by simp)
    · have hfold : PhoneUnique ((rows.foldl (distribute_step
          (get_callers_by_type db.users lt false) lt u now) ⟨db, [], 0⟩).db.leads) :=
        foldl_inv _ (fun acc => PhoneUnique acc.db.leads)
          (fun s a hs => distribute_step_phoneUnique _ lt u now s a hs)
          rows ⟨db, [], 0⟩ h
      have := (Except.ok.injEq _ _).mp hok
      have hdb : db' = (rows.foldl (distribute_step
          (get_callers_by_type db.users lt false) lt u now) ⟨db, [], 0⟩).db := by
        have h2 := congrArg Prod.fst this.symm
        exact h2
      rw [hdb]
      exact hfold
  · exact foldl_inv _ (fun acc => PhoneUnique acc.db.leads)
      (fun s a hs => transfer_step_phoneUnique X T tnotes now s a hs)
      pids ⟨db, [], []⟩ h

/-- C2 witness: the invariant at `sampleDB` with a two-row batch containing a
duplicate phone and a transfer of quarantine id 1. -/
theorem phone_uniqueness_invariant_witness :
    PhoneUnique sampleDB.leads ∧
    ((∀ db' created, distribute_leads sampleDB 3
        [⟨"a", "9000000001", "", "", "", "", ""⟩, ⟨"b", "9000000001", "", "", "", "", ""⟩]
        LeadType.FRANCHISE sampleAdmin = Except.ok (db', created) →
      PhoneUnique db'.leads) ∧
    PhoneUnique (transfer_pulled_leads sampleDB 9 [1] sampleAgentB sampleAdmin "n").db.leads) :=
  ⟨by unfold PhoneUnique; exact List.pairwise_singleton _ _,
    phone_uniqueness_invariant sampleDB 3
      [⟨"a", "9000000001", "", "", "", "", ""⟩, ⟨"b", "9000000001", "", "", "", "", ""⟩]
      LeadType.FRANCHISE sampleAdmin [1] sampleAgentB sampleAdmin "n"
      (by unfold PhoneUnique; exact List.pairwise_singleton _ _)⟩

/-! ### C5: pull-by-filter versus pull-by-ids per-row outcome -/

/-- The content of a quarantine snapshot that both pull paths copy from the
lead (excluding the metadata that legitimately differs between the paths:
primary key, notes log text, pull reason and the filter-criteria blob). -/
structure PulledCore where
  original_lead_id : Option Nat
  name : String
  email : Option String
  phone : String
  company : Option String
  city : Option String
  state : Option String
  original_lead_type : LeadType
  original_status : LeadStatus
  pulled_by : Option Nat
  pulled_from : Option Nat
  exported : Bool
  exported_at : Option Nat
deriving DecidableEq, Repr

/-- Core projection of a quarantine row. -/
def pulledCore (p : PulledLead) : PulledCore :=
  ⟨p.original_lead_id, p.name, p.email, p.phone, p.company, p.city, p.state,
   p.original_lead_type, p.original_status, p.pulled_by, p.pulled_from,
   p.exported, p.exported_at⟩

/-- The per-row outcome of one pull step started from an empty accumulator:
either the row was left in place (skipped or failed) or it was moved into
quarantine with the given snapshot core. -/
inductive PerRowOutcome where
  | leftAlone
  | moved (core : PulledCore)
deriving DecidableEq, Repr

/-- Observation of a single-row pull step. -/
def rowOutcomeOfAcc (acc : PullAcc) : PerRowOutcome :=
  match acc.pulled_leads with
  | [p] => PerRowOutcome.moved (pulledCore p)
  | _ => PerRowOutcome.leftAlone

/-- An active lead with no assignee. -/
def sampleUnassignedLead : Lead := ⟨1, "Noa", none, "9555555555", none, none, none,
  LeadType.FRANCHISE, LeadStatus.NEW, none, some 9, none, none, none, none, 5⟩

/-- A database whose only lead is unassigned. -/
def sampleUnassignedDB : DB :=
  ⟨[sampleAgent, sampleAdmin], [sampleUnassignedLead], [], [], 2, 1⟩

/-- An empty filter record: every criterion absent. -/
def noFilters : PullFilters := ⟨none, none, none, none, none, none, none, none, none⟩

/-- C5 counterexample: on a database whose only lead is unassigned, the
filter path quarantines and deletes the lead (with a null source agent),
while the id-list path on the very same lead skips it with the reason
`Lead is not assigned` and leaves the active store untouched — the per-row
outcomes of the two paths differ, contradicting the claimed equality. -/
theorem pull_filter_vs_ids_counterexample :
    (pull_leads_by_filters sampleUnassignedDB 10 noFilters sampleAdmin).deleted_leads.length = 1 ∧
    (pull_leads_by_filters sampleUnassignedDB 10 noFilters sampleAdmin).db.leads = [] ∧
    (pull_leads_by_ids sampleUnassignedDB 10 [1] sampleAdmin "").deleted_leads = [] ∧
    (pull_leads_by_ids sampleUnassignedDB 10 [1] sampleAdmin "").failed_leads =
      [⟨1, "Lead is not assigned"⟩] ∧
    (pull_leads_by_ids sampleUnassignedDB 10 [1] sampleAdmin "").db.leads =
      [sampleUnassignedLead] ∧
    rowOutcomeOfAcc (pull_step_by_filter noFilters sampleAdmin 10
        ⟨sampleUnassignedDB, [], [], []⟩ sampleUnassignedLead) ≠
      rowOutcomeOfAcc (pull_step_by_id sampleAdmin "" 10
        ⟨sampleUnassignedDB, [], [], []⟩ sampleUnassignedLead.id) :=
  ⟨rfl, rfl, rfl, rfl, rfl, by decide⟩

/-- C5 (amended): for every selected lead that is currently assigned, the
filter path's per-row outcome (skip on an un-exported quarantine duplicate
for (phone, assignee), otherwise snapshot-and-delete) agrees with the id-list
path's outcome on the same lead: same decision, same resulting active store,
and quarantine rows with the same snapshot core.  (For unassigned leads the
paths differ: the id path skips them, the filter path quarantines them.) -/
theorem pull_row_outcome_agreement (db : DB) (now : Nat) (u : User)
    (reason : String) (f : PullFilters) (lead : Lead) (aid : Nat)
    (hfind : db.leads.find? (fun l => l.id == lead.id) = some lead)
    (hass : lead.assigned_to = some aid) :
    rowOutcomeOfAcc (pull_step_by_id u reason now ⟨db, [], [], []⟩ lead.id) =
      rowOutcomeOfAcc (pull_step_by_filter f u now ⟨db, [], [], []⟩ lead) ∧
    (pull_step_by_id u reason now ⟨db, [], [], []⟩ lead.id).db.leads =
      (pull_step_by_filter f u now ⟨db, [], [], []⟩ lead).db.leads ∧
    (pull_step_by_id u reason now ⟨db, [], [], []⟩ lead.id).db.pulled.map pulledCore =
      (pull_step_by_filter f u now ⟨db, [], [], []⟩ lead).db.pulled.map pulledCore := by
  unfold pull_step_by_id pull_step_by_filter
  rw [hfind]
  dsimp only
  by_cases hdup : unexported_dup db.pulled lead.phone lead.assigned_to = true
  · rw [if_pos hdup, if_pos hdup]
    exact ⟨rfl, rfl, rfl⟩
  · rw [if_neg hdup, if_neg hdup, if_neg (by rw [hass]; simp)]
    refine ⟨rfl, rfl, ?_⟩
    show (db.pulled ++ [mkPulledByIds db now lead u reason lead.id]).map pulledCore =
      (db.pulled ++ [mkPulledByFilters db now lead u f]).map pulledCore
    rw [List.map_append, List.map_append]
    rfl

/-- C5 witness: the amended agreement at `sampleDB`'s assigned lead 1. -/
theorem pull_row_outcome_agreement_witness :
    rowOutcomeOfAcc (pull_step_by_id sampleAdmin "t" 10
        ⟨sampleDB, [], [], []⟩ sampleLead.id) =
      rowOutcomeOfAcc (pull_step_by_filter noFilters sampleAdmin 10
        ⟨sampleDB, [], [], []⟩ sampleLead) ∧
    (pull_step_by_id sampleAdmin "t" 10 ⟨sampleDB, [], [], []⟩ sampleLead.id).db.leads =
      (pull_step_by_filter noFilters sampleAdmin 10 ⟨sampleDB, [], [], []⟩ sampleLead).db.leads ∧
    (pull_step_by_id sampleAdmin "t" 10
        ⟨sampleDB, [], [], []⟩ sampleLead.id).db.pulled.map pulledCore =
      (pull_step_by_filter noFilters sampleAdmin 10
        ⟨sampleDB, [], [], []⟩ sampleLead).db.pulled.map pulledCore :=
  pull_row_outcome_agreement sampleDB 10 sampleAdmin "t" noFilters sampleLead 1
    (by rfl) (by rfl)

/-! ### C4: pull, export, transfer round-trip -/

/-- An export filter record with every criterion absent. -/
def expNone : ExportFilters := ⟨none, none, none, none⟩

theorem pull_single_spec (db : DB) (now : Nat) (u : User) (reason : String)
    (L : Lead) (a : Nat)
    (hfind : db.leads.find? (fun l => l.id == L.id) = some L)
    (hass : L.assigned_to = some a)
    (hdup : unexported_dup db.pulled L.phone L.assigned_to = false) :
    pull_leads_by_ids db now [L.id] u reason =
      ⟨{ db with
          leads := db.leads.filter (fun l => !(l.id == L.id))
          pulled := db.pulled ++ [mkPulledByIds db now L u reason L.id]
          next_pulled_id := db.next_pulled_id + 1 },
        [mkPulledByIds db now L u reason L.id], [],
        [⟨L.id, L.name, L.phone, some L.status, some L.lead_type, assigneeName db L⟩]⟩ := by
  show pull_step_by_id u reason now ⟨db, [], [], []⟩ L.id = _
  unfold pull_step_by_id
  rw [hfind]
  dsimp only
  rw [if_neg (by rw [hdup]; simp), if_neg (by rw [hass]; simp)]
  rfl

/-- C4: pulling lead `L` (phone `P`, category `C`), then exporting the fresh
quarantine row by id, then transferring it to agent `X` (with no active lead
holding `P` at transfer time) produces an active lead with phone `P`,
category `C` (the quarantine row's original category), status NEW and
assignee `X`, and the quarantine row no longer exists. -/
theorem pull_export_transfer_roundtrip (db : DB) (now1 now2 now3 : Nat)
    (puller X T : User) (reason tnotes : String) (L : Lead) (a : Nat)
    (hfind : db.leads.find? (fun l => l.id == L.id) = some L)
    (hass : L.assigned_to = some a)
    (hdup : unexported_dup db.pulled L.phone L.assigned_to = false)
    (hfresh : ∀ q ∈ db.pulled, q.id ≠ db.next_pulled_id)
    (honly : (db.leads.filter (fun l => !(l.id == L.id))).any
      (fun l => l.phone == L.phone) = false) :
    ∃ rows db2 nl,
      export_pulled_leads_to_excel (pull_leads_by_ids db now1 [L.id] puller reason).db
        now2 (some [db.next_pulled_id]) expNone = Except.ok (rows, db2) ∧
      (transfer_pulled_leads db2 now3 [db.next_pulled_id] X T tnotes).transferred_leads.length = 1 ∧
      (transfer_pulled_leads db2 now3 [db.next_pulled_id] X T tnotes).db.leads =
        db.leads.filter (fun l => !(l.id == L.id)) ++ [nl] ∧
      nl.phone = L.phone ∧ nl.lead_type = L.lead_type ∧ nl.status = LeadStatus.NEW ∧
      nl.assigned_to = some X.id ∧
      (transfer_pulled_leads db2 now3 [db.next_pulled_id] X T tnotes).db.pulled.countP
        (fun q => q.id == db.next_pulled_id) = 0 := by
  have hr1 := pull_single_spec db now1 puller reason L a hfind hass hdup
  have hpredp : export_pred (some [db.next_pulled_id]) expNone
      (mkPulledByIds db now1 L puller reason L.id) = true := by
    unfold export_pred expNone
    simp [mkPulledByIds, List.contains]
  have hprednot : ∀ q ∈ db.pulled,
      ¬ (export_pred (some [db.next_pulled_id]) expNone q = true) := by
    intro q hq
    unfold export_pred expNone
    have hne : q.id ≠ db.next_pulled_id := hfresh q hq
    simp [List.contains, hne]
  have hupdp : exportUpd now2 (some [db.next_pulled_id]) expNone
      (mkPulledByIds db now1 L puller reason L.id) =
      { mkPulledByIds db now1 L puller reason L.id with
        exported := true, exported_at := some now2 } := by
    unfold exportUpd
    rw [if_pos hpredp]
  have hupdid : ∀ q, (exportUpd now2 (some [db.next_pulled_id]) expNone q).id = q.id := by
    intro q
    unfold exportUpd
    by_cases h : export_pred (some [db.next_pulled_id]) expNone q = true
    · rw [if_pos h]
    · rw [if_neg h]
  have hfilter : (db.pulled ++ [mkPulledByIds db now1 L puller reason L.id]).filter
      (export_pred (some [db.next_pulled_id]) expNone) =
      [mkPulledByIds db now1 L puller reason L.id] := by
    rw [List.filter_append, List.filter_eq_nil_iff.mpr hprednot]
    simp [hpredp]
  have he : export_pulled_leads_to_excel (pull_leads_by_ids db now1 [L.id] puller reason).db
      now2 (some [db.next_pulled_id]) expNone =
      Except.ok ([exportRowOf (mkPulledByIds db now1 L puller reason L.id)],
        { db with
          leads := db.leads.filter (fun l => !(l.id == L.id))
          pulled := (db.pulled.map (exportUpd now2 (some [db.next_pulled_id]) expNone)) ++
            [{ mkPulledByIds db now1 L puller reason L.id with
                exported := true, exported_at := some now2 }]
          next_pulled_id := db.next_pulled_id + 1 }) := by
    rw [hr1]
    unfold export_pulled_leads_to_excel
    rw [hfilter]
    simp only [List.isEmpty_cons, Bool.false_eq_true, if_false, List.map_append,
      List.map_cons, List.map_nil]
    rw [hupdp]
  refine ⟨[exportRowOf (mkPulledByIds db now1 L puller reason L.id)], _,
    mkTransferredLead
      { db with
        leads := db.leads.filter (fun l => !(l.id == L.id))
        pulled := (db.pulled.map (exportUpd now2 (some [db.next_pulled_id]) expNone)) ++
          [{ mkPulledByIds db now1 L puller reason L.id with
              exported := true, exported_at := some now2 }]
        next_pulled_id := db.next_pulled_id + 1 }
      now3
      { mkPulledByIds db now1 L puller reason L.id with
        exported := true, exported_at := some now2 }
      db.next_pulled_id X T tnotes,
    he, ?_⟩
  have hfind3 : ((db.pulled.map (exportUpd now2 (some [db.next_pulled_id]) expNone)) ++
      [{ mkPulledByIds db now1 L puller reason L.id with
          exported := true, exported_at := some now2 }]).find?
      (fun q => q.id == db.next_pulled_id) =
      some { mkPulledByIds db now1 L puller reason L.id with
        exported := true, exported_at := some now2 } := by
    rw [find?_append_of_none _ _ _ (fun x hx => by
      rcases List.mem_map.mp hx with ⟨q, hq, hqx⟩
      have : x.id = q.id := by rw [← hqx]; exact hupdid q
      rw [this]
      exact beq_eq_false_iff_ne.mpr (hfresh q hq))]
    simp [mkPulledByIds]
  have hdup3 : ((db.leads.filter (fun l => !(l.id == L.id))).any
      (fun l => l.phone == ({ mkPulledByIds db now1 L puller reason L.id with
        exported := true, exported_at := some now2 } : PulledLead).phone)) = false := honly
  have ht : transfer_pulled_leads
      ({ db with
        leads := db.leads.filter (fun l => !(l.id == L.id))
        pulled := (db.pulled.map (exportUpd now2 (some [db.next_pulled_id]) expNone)) ++
          [{ mkPulledByIds db now1 L puller reason L.id with
              exported := true, exported_at := some now2 }]
        next_pulled_id := db.next_pulled_id + 1 } : DB)
      now3 [db.next_pulled_id] X T tnotes =
      transfer_step X T tnotes now3
        ⟨{ db with
          leads := db.leads.filter (fun l => !(l.id == L.id))
          pulled := (db.pulled.map (exportUpd now2 (some [db.next_pulled_id]) expNone)) ++
            [{ mkPulledByIds db now1 L puller reason L.id with
                exported := true, exported_at := some now2 }]
          next_pulled_id := db.next_pulled_id + 1 }, [], []⟩ db.next_pulled_id := rfl
  rw [ht]
  unfold transfer_step
  rw [hfind3]
  dsimp only
  rw [if_neg (by rw [hdup3]; simp)]
  refine ⟨rfl, rfl, rfl, rfl, rfl, rfl, ?_⟩
  apply countP_filter_zero
  intro q _
  by_cases hq : q.id = db.next_pulled_id
  · simp [hq, mkPulledByIds]
  · simp [hq]

/-- C4 witness: the round-trip on `sampleDB`'s lead 1, exported at time 20
and transferred to `sampleAgentB` at time 30. -/
theorem pull_export_transfer_roundtrip_witness :
    ∃ rows db2 nl,
      export_pulled_leads_to_excel (pull_leads_by_ids sampleDB 10 [sampleLead.id] sampleAdmin "r").db
        20 (some [sampleDB.next_pulled_id]) expNone = Except.ok (rows, db2) ∧
      (transfer_pulled_leads db2 30 [sampleDB.next_pulled_id] sampleAgentB sampleAdmin "n").transferred_leads.length = 1 ∧
      (transfer_pulled_leads db2 30 [sampleDB.next_pulled_id] sampleAgentB sampleAdmin "n").db.leads =
        sampleDB.leads.filter (fun l => !(l.id == sampleLead.id)) ++ [nl] ∧
      nl.phone = sampleLead.phone ∧ nl.lead_type = sampleLead.lead_type ∧
      nl.status = LeadStatus.NEW ∧ nl.assigned_to = some sampleAgentB.id ∧
      (transfer_pulled_leads db2 30 [sampleDB.next_pulled_id] sampleAgentB sampleAdmin "n").db.pulled.countP
        (fun q => q.id == sampleDB.next_pulled_id) = 0 :=
  pull_export_transfer_roundtrip sampleDB 10 20 30 sampleAdmin sampleAgentB sampleAdmin
    "r" "n" sampleLead 1 (by rfl) (by rfl) (by rfl)
    (by intro q hq; exact absurd hq (List.not_mem_nil q)) (by rfl)

/-! ### C3: round-robin fairness -/

theorem insertById_perm (u : User) : ∀ (l : List User), (insertById u l).Perm (u :: l)
  | [] => List.Perm.refl _
  | v :: vs => by
    unfold insertById
    by_cases h : u.id ≤ v.id
    · rw [if_pos h]
    · rw [if_neg h]
      exact ((insertById_perm u vs).cons v).trans (List.Perm.swap u v vs)

theorem sortById_perm : ∀ (l : List User), (sortById l).Perm l
  | [] => List.Perm.refl _
  | u :: us => by
    unfold sortById
    show (insertById u (us.foldr insertById [])).Perm (u :: us)
    exact (insertById_perm u _).trans ((sortById_perm us).cons u)

theorem insertById_sorted (u : User) :
    ∀ (l : List User), l.Pairwise (fun a b => a.id ≤ b.id) →
      (insertById u l).Pairwise (fun a b => a.id ≤ b.id)
  | [], _ => List.pairwise_singleton _ _
  | v :: vs, h => by
    rcases List.pairwise_cons.mp h with ⟨hv, hvs⟩
    unfold insertById
    by_cases hle : u.id ≤ v.id
    · rw [if_pos hle]
      refine List.pairwise_cons.mpr ⟨?_, h⟩
      intro b hb
      rcases List.mem_cons.mp hb with hb1 | hb2
      · rw [hb1]; exact hle
      · exact le_trans hle (hv b hb2)
    · rw [if_neg hle]
      refine List.pairwise_cons.mpr ⟨?_, insertById_sorted u vs hvs⟩
      intro b hb
      rcases List.mem_cons.mp ((insertById_perm u vs).mem_iff.mp hb) with hb1 | hb2
      · rw [hb1]; exact le_of_not_le hle
      · exact hv b hb2

theorem sortById_sorted : ∀ (l : List User),
    (sortById l).Pairwise (fun a b => a.id ≤ b.id)
  | [] => List.Pairwise.nil
  | u :: us => by
    unfold sortById
    show (insertById u (us.foldr insertById [])).Pairwise _
    exact insertById_sorted u _ (sortById_sorted us)

theorem get_callers_pairwise_ne (users : List User) (lt : LeadType)
    (hids : users.Pairwise (fun a b => a.id ≠ b.id)) :
    (get_callers_by_type users lt false).Pairwise (fun a b => a.id ≠ b.id) := by
  unfold get_callers_by_type
  dsimp only
  apply ((sortById_perm _).pairwise_iff (fun h he => h he.symm)).mpr
  exact (hids.filter _).filter _

theorem getD_id_inj (callers : List User)
    (hpw : callers.Pairwise (fun a b => a.id ≠ b.id)) (i j : Nat)
    (hi : i < callers.length) (hj : j < callers.length)
    (h : (callers.getD i default).id = (callers.getD j default).id) : i = j := by
  by_contra hne
  rw [List.getD_eq_getElem _ _ hi, List.getD_eq_getElem _ _ hj] at h
  rcases Nat.lt_or_ge i j with hij | hij
  · exact (List.pairwise_iff_getElem.mp hpw i j hi hj hij) h
  · have hji : j < i := lt_of_le_of_ne hij (fun he => hne he.symm)
    exact (List.pairwise_iff_getElem.mp hpw j i hj hi hji) h.symm

theorem count_range_mod (K j : Nat) (hK : 0 < K) (hj : j < K) :
    ∀ N, (List.range N).countP (fun i => i % K == j) =
      N / K + (if j < N % K then 1 else 0) := by
  intro N
  induction N with
  | zero => simp
  | succ n ih =>
    rw [List.range_succ, List.countP_append, ih]
    have hr : n % K < K := Nat.mod_lt n hK
    have hdm := Nat.div_add_mod n K
    have hKs : K * (n / K + 1) = K * (n / K) + K := by ring
    by_cases hcase : n % K + 1 = K
    · have hmul : n + 1 = K * (n / K + 1) := by omega
      have hmod : (n + 1) % K = 0 := by rw [hmul]; exact Nat.mul_mod_right K _
      have hdiv : (n + 1) / K = n / K + 1 := by
        rw [hmul]; exact Nat.mul_div_cancel_left _ hK
      rw [hmod, hdiv]
      by_cases hjr : j < n % K
      · have hne : (n % K == j) = false := beq_eq_false_iff_ne.mpr (by omega)
        simp [hjr, hne]
      · have heq : n % K = j := by omega
        have hbe : (n % K == j) = true := beq_iff_eq.mpr heq
        simp [hjr, hbe]
    · have hlt : n % K + 1 < K := by omega
      have hsplit : n + 1 = (n % K + 1) + K * (n / K) := by omega
      have hmod : (n + 1) % K = n % K + 1 := by
        rw [hsplit, Nat.add_mul_mod_self_left, Nat.mod_eq_of_lt hlt]
      have hdiv : (n + 1) / K = n / K := by
        rw [hsplit, Nat.add_mul_div_left _ _ hK, Nat.div_eq_of_lt hlt, Nat.zero_add]
      rw [hmod, hdiv]
      by_cases hjr : j < n % K
      · have hne : (n % K == j) = false := beq_eq_false_iff_ne.mpr (by omega)
        have : j < n % K + 1 := by omega
        simp [hjr, hne, this]
      · by_cases heq : n % K = j
        · have hbe : (n % K == j) = true := beq_iff_eq.mpr heq
          have : j < n % K + 1 := by omega
          simp [hjr, hbe, this]
        · have hne : (n % K == j) = false := beq_eq_false_iff_ne.mpr heq
          have : ¬ (j < n % K + 1) := by omega
          simp [hjr, hne, this]

theorem floor_or_ceil (N K j : Nat) (hK : 0 < K) :
    N / K + (if j < N % K then 1 else 0) = N / K ∨
    N / K + (if j < N % K then 1 else 0) = (N + K - 1) / K := by
  by_cases h : j < N % K
  · right
    rw [if_pos h]
    have hr : 0 < N % K := lt_of_le_of_lt (Nat.zero_le j) h
    have hrK : N % K < K := Nat.mod_lt N hK
    have hdm := Nat.div_add_mod N K
    have hKs : K * (N / K + 1) = K * (N / K) + K := by ring
    have hsplit : N + K - 1 = (N % K - 1) + K * (N / K + 1) := by omega
    have h0 : (N % K - 1) / K = 0 := Nat.div_eq_of_lt (by omega)
    rw [hsplit, Nat.add_mul_div_left _ _ hK, h0, Nat.zero_add]
  · left
    rw [if_neg h]
    exact Nat.add_zero _

theorem distribute_fold_spec (callers : List User) (lt : LeadType) (u : User) (now : Nat) :
    ∀ (rows : List RawLead) (db0 : DB) (c0 : List Lead) (n : Nat),
    (∀ r ∈ rows, r.name ≠ "" ∧ r.phone ≠ "" ∧
      valid_phone (normalize_phone r.phone) = true) →
    (∀ r ∈ rows, db0.leads.any (fun l => l.phone == normalize_phone r.phone) = false) →
    (rows.map (fun r => normalize_phone r.phone)).Pairwise (fun a b => a ≠ b) →
    ∃ out : List Lead,
      (rows.foldl (distribute_step callers lt u now) ⟨db0, c0, n⟩).created_leads =
        c0 ++ out ∧
      (rows.foldl (distribute_step callers lt u now) ⟨db0, c0, n⟩).db.leads =
        db0.leads ++ out ∧
      (rows.foldl (distribute_step callers lt u now) ⟨db0, c0, n⟩).caller_index =
        n + rows.length ∧
      out.map (fun l => l.assigned_to) = (List.range rows.length).map
        (fun i => some ((callers.getD ((n + i) % callers.length) default).id)) ∧
      out.map (fun l => l.phone) = rows.map (fun r => normalize_phone r.phone) := by
  intro rows
  induction rows with
  | nil =>
    intro db0 c0 n _ _ _
    exact ⟨[], by simp, by simp, by simp, rfl, rfl⟩
  | cons r rs ih =>
    intro db0 c0 n hv hd hp
    obtain ⟨hn, hph, hvp⟩ := hv r (List.mem_cons_self r rs)
    have hd0 : db0.leads.any (fun l => l.phone == normalize_phone r.phone) = false :=
      hd r (List.mem_cons_self r rs)
    have hstep : distribute_step callers lt u now ⟨db0, c0, n⟩ r =
        ⟨{ db0 with
            leads := db0.leads ++ [mkDistributedLead db0 now r (normalize_phone r.phone)
              lt (callers.getD (n % callers.length) default) u]
            activities := db0.activities ++ [⟨db0.next_lead_id, some u.id, "NOTE",
              "Lead auto-distributed and assigned to "
                ++ (callers.getD (n % callers.length) default).get_full_name, none, none⟩]
            next_lead_id := db0.next_lead_id + 1 },
          c0 ++ [mkDistributedLead db0 now r (normalize_phone r.phone) lt
            (callers.getD (n % callers.length) default) u],
          n + 1⟩ := by
      unfold distribute_step
      rw [if_neg (by simp [hn, hph])]
      dsimp only
      rw [if_neg (by rw [hvp]; simp), if_neg (by rw [hd0]; simp)]
      rfl
    rw [List.foldl_cons, hstep]
    have hmap : (rs.map (fun r' => normalize_phone r'.phone)).Pairwise
        (fun a b => a ≠ b) ∧
        ∀ r' ∈ rs, normalize_phone r.phone ≠ normalize_phone r'.phone := by
      rw [List.map_cons] at hp
      rcases List.pairwise_cons.mp hp with ⟨h1, h2⟩
      exact ⟨h2, fun r' hr' => h1 _ (List.mem_map_of_mem _ hr')⟩
    have hv' : ∀ r' ∈ rs, r'.name ≠ "" ∧ r'.phone ≠ "" ∧
        valid_phone (normalize_phone r'.phone) = true :=
      fun r' hr' => hv r' (List.mem_cons_of_mem r hr')
    have hd' : ∀ r' ∈ rs,
        (db0.leads ++ [mkDistributedLead db0 now r (normalize_phone r.phone)
          lt (callers.getD (n % callers.length) default) u]).any
          (fun l => l.phone == normalize_phone r'.phone) = false := by
      intro r' hr'
      rw [List.any_append, hd r' (List.mem_cons_of_mem r hr'), Bool.false_or]
      simp only [List.any_cons, List.any_nil, Bool.or_false]
      exact beq_eq_false_iff_ne.mpr (hmap.2 r' hr')
    obtain ⟨out, hc, hl, hi, ha, hpm⟩ := ih
      ({ db0 with
          leads := db0.leads ++ [mkDistributedLead db0 now r (normalize_phone r.phone)
            lt (callers.getD (n % callers.length) default) u]
          activities := db0.activities ++ [⟨db0.next_lead_id, some u.id, "NOTE",
            "Lead auto-distributed and assigned to "
              ++ (callers.getD (n % callers.length) default).get_full_name, none, none⟩]
          next_lead_id := db0.next_lead_id + 1 })
      (c0 ++ [mkDistributedLead db0 now r (normalize_phone r.phone) lt
        (callers.getD (n % callers.length) default) u])
      (n + 1) hv' hd' hmap.1
    refine ⟨mkDistributedLead db0 now r (normalize_phone r.phone) lt
      (callers.getD (n % callers.length) default) u :: out, ?_, ?_, ?_, ?_, ?_⟩
    · rw [hc]
      simp
    · rw [hl]
      simp
    · rw [hi]
      simp only [List.length_cons]
      omega
    · rw [List.map_cons, ha,
        show (r :: rs).length = rs.length + 1 from rfl,
        List.range_succ_eq_map, List.map_cons, List.map_map]
      refine congrArg₂ List.cons ?_ ?_
      · simp [mkDistributedLead]
      · apply List.map_congr_left
        intro i _
        show some ((callers.getD ((n + 1 + i) % callers.length) default).id) =
          some ((callers.getD ((n + (i + 1)) % callers.length) default).id)
        rw [show n + 1 + i = n + (i + 1) from by omega]
    · rw [List.map_cons, hpm, List.map_cons]
      rfl

/-- C3: distributing a batch of N rows that all pass validation and dedup
across the K eligible present callers (K ≥ 1) succeeds, creates one lead per
row, assigns row i to caller `i mod K` of the caller list — which is sorted by
ascending agent id — and gives every caller either `floor(N/K)` or
`ceil(N/K)` leads.  Rows are only skipped (without consuming a rotation slot)
when they fail validation or dedup, which the hypotheses exclude. -/
theorem round_robin_fairness (db : DB) (now : Nat) (rows : List RawLead)
    (lt : LeadType) (u : User)
    (hK : get_callers_by_type db.users lt false ≠ [])
    (hids : db.users.Pairwise (fun a b => a.id ≠ b.id))
    (hvalid : ∀ r ∈ rows, r.name ≠ "" ∧ r.phone ≠ "" ∧
      valid_phone (normalize_phone r.phone) = true)
    (hdedup : ∀ r ∈ rows, db.leads.any
      (fun l => l.phone == normalize_phone r.phone) = false)
    (hbatch : (rows.map (fun r => normalize_phone r.phone)).Pairwise
      (fun a b => a ≠ b)) :
    ∃ db' created,
      distribute_leads db now rows lt u = Except.ok (db', created) ∧
      created.length = rows.length ∧
      created.map (fun l => l.assigned_to) = (List.range rows.length).map
        (fun i => some (((get_callers_by_type db.users lt false).getD
          (i % (get_callers_by_type db.users lt false).length) default).id)) ∧
      (get_callers_by_type db.users lt false).Pairwise (fun a b => a.id ≤ b.id) ∧
      (∀ j, j < (get_callers_by_type db.users lt false).length →
        created.countP (fun l => l.assigned_to ==
            some (((get_callers_by_type db.users lt false).getD j default).id)) =
          rows.length / (get_callers_by_type db.users lt false).length ∨
        created.countP (fun l => l.assigned_to ==
            some (((get_callers_by_type db.users lt false).getD j default).id)) =
          (rows.length + (get_callers_by_type db.users lt false).length - 1) /
            (get_callers_by_type db.users lt false).length) := by
  obtain ⟨out, hc, hl, hi, ha, hpm⟩ := distribute_fold_spec
    (get_callers_by_type db.users lt false) lt u now rows db [] 0 hvalid hdedup hbatch
  have hne : (get_callers_by_type db.users lt false).isEmpty = false := by
    cases hcl : get_callers_by_type db.users lt false with
    | nil => exact absurd hcl hK
    | cons a l => rfl
  have hKpos : 0 < (get_callers_by_type db.users lt false).length :=
    List.length_pos.mpr hK
  have hpw := get_callers_pairwise_ne db.users lt hids
  have hok : distribute_leads db now rows lt u = Except.ok
      ((rows.foldl (distribute_step (get_callers_by_type db.users lt false) lt u now)
          ⟨db, [], 0⟩).db,
        (rows.foldl (distribute_step (get_callers_by_type db.users lt false) lt u now)
          ⟨db, [], 0⟩).created_leads) := by
    unfold distribute_leads
    simp only [hne, Bool.false_eq_true, if_false]
  have hout : (rows.foldl (distribute_step (get_callers_by_type db.users lt false)
      lt u now) ⟨db, [], 0⟩).created_leads = out := by
    rw [hc]
    rfl
  have hlen : out.length = rows.length := by
    have h1 := congrArg List.length ha
    rw [List.length_map, List.length_map, List.length_range] at h1
    exact h1
  refine ⟨_, _, hok, ?_, ?_, ?_, ?_⟩
  · rw [hout]
    exact hlen
  · rw [hout, ha]
    apply List.map_congr_left
    intro i _
    rw [Nat.zero_add]
  · unfold get_callers_by_type
    dsimp only
    exact sortById_sorted _
  · intro j hj
    have hiff : ∀ x ∈ List.range rows.length,
        ((some (((get_callers_by_type db.users lt false).getD
            ((0 + x) % (get_callers_by_type db.users lt false).length) default).id) ==
          some (((get_callers_by_type db.users lt false).getD j default).id)) = true) ↔
        ((x % (get_callers_by_type db.users lt false).length == j) = true) := by
      intro x _
      rw [Nat.zero_add]
      simp only [beq_iff_eq, Option.some.injEq]
      constructor
      · intro h
        exact getD_id_inj _ hpw _ j (Nat.mod_lt x hKpos) hj h
      · intro h
        rw [h]
    have hcount : out.countP (fun l => l.assigned_to ==
        some (((get_callers_by_type db.users lt false).getD j default).id)) =
        (List.range rows.length).countP
          (fun i => i % (get_callers_by_type db.users lt false).length == j) := by
      rw [show out.countP (fun l => l.assigned_to ==
          some (((get_callers_by_type db.users lt false).getD j default).id)) =
          (out.map (fun l => l.assigned_to)).countP (fun o => o ==
            some (((get_callers_by_type db.users lt false).getD j default).id))
        from (List.countP_map
          (fun o => o == some (((get_callers_by_type db.users lt false).getD j default).id))
          (fun l : Lead => l.assigned_to) out).symm]
      rw [ha, List.countP_map]
      exact List.countP_congr hiff
    rw [hout, hcount, count_range_mod _ j hKpos hj rows.length]
    exact floor_or_ceil rows.length _ j hKpos

/-- Five valid rows with pairwise distinct normalized phones. -/
def sampleRows : List RawLead :=
  [⟨"a", "9000000001", "", "", "", "", ""⟩,
   ⟨"b", "9000000002", "", "", "", "", ""⟩,
   ⟨"c", "9000000003", "", "", "", "", ""⟩,
   ⟨"d", "9000000004", "", "", "", "", ""⟩,
   ⟨"e", "9000000005", "", "", "", "", ""⟩]

/-- C3 witness: five rows distributed over the two present franchise callers
of `sampleDB`. -/
theorem round_robin_fairness_witness :
    ∃ db' created,
      distribute_leads sampleDB 3 sampleRows LeadType.FRANCHISE sampleAdmin =
        Except.ok (db', created) ∧
      created.length = sampleRows.length ∧
      created.map (fun l => l.assigned_to) = (List.range sampleRows.length).map
        (fun i => some (((get_callers_by_type sampleDB.users LeadType.FRANCHISE false).getD
          (i % (get_callers_by_type sampleDB.users LeadType.FRANCHISE false).length)
          default).id)) ∧
      (get_callers_by_type sampleDB.users LeadType.FRANCHISE false).Pairwise
        (fun a b => a.id ≤ b.id) ∧
      (∀ j, j < (get_callers_by_type sampleDB.users LeadType.FRANCHISE false).length →
        created.countP (fun l => l.assigned_to ==
            some (((get_callers_by_type sampleDB.users LeadType.FRANCHISE false).getD
              j default).id)) =
          sampleRows.length /
            (get_callers_by_type sampleDB.users LeadType.FRANCHISE false).length ∨
        created.countP (fun l => l.assigned_to ==
            some (((get_callers_by_type sampleDB.users LeadType.FRANCHISE false).getD
              j default).id)) =
          (sampleRows.length +
              (get_callers_by_type sampleDB.users LeadType.FRANCHISE false).length - 1) /
            (get_callers_by_type sampleDB.users LeadType.FRANCHISE false).length) :=
  round_robin_fairness sampleDB 3 sampleRows LeadType.FRANCHISE sampleAdmin
    (by decide) (by decide) (by decide) (by decide) (by decide)

end Saumata
